import Mathlib

/-!
# Verification of the dcm-catalog-manager persistence layer

Shallow embedding of the store package of `dcm-catalog-manager`
(`internal/store`: `service_type.go`, `catalog_item.go`, the catalog item
instance store, and `internal/store/model`).  Go values are modelled as
follows: Go `string` is Lean `String`, Go `int` (64-bit) is Lean `Int`
(the one place the source itself enforces the 64-bit range —
`strconv.Atoi` — is modelled with an explicit range check), `time.Time`
values are opaque `Nat` instants, and schema-less JSON payloads (`jsonb`
columns that the store never inspects) are carried as their serialized
text.  The relational backend is modelled as explicit state: a record of
the three tables, with the SQL-level behaviour (ORDER BY / LIMIT /
OFFSET, primary-key and unique constraints, restrict foreign keys)
embedded as pure functions on that state.
-/

namespace DCM

/-! ## ASCII helpers: `strings.ToLower` and `strings.Contains` -/

/-- ASCII lowering of one character, the fragment of Go `strings.ToLower`
relevant to the ASCII needles used by the store. -/
def lowerChar (c : Char) : Char :=
  if 'A' ≤ c ∧ c ≤ 'Z' then Char.ofNat (c.toNat + 32) else c

/-- `strings.ToLower` on a whole string (ASCII fragment). -/
def lowerStr (s : String) : String := String.mk (s.data.map lowerChar)

/-- Does `pat` occur at the head of `l`? -/
def leadMatch : List Char → List Char → Bool
  | [], _ => true
  | _ :: _, [] => false
  | p :: ps, c :: cs => p = c && leadMatch ps cs

/-- Go `strings.Contains`: does `pat` occur anywhere inside `l`? -/
def containsSub (l pat : List Char) : Bool :=
  (List.range (l.length + 1)).any fun i => leadMatch pat (l.drop i)

/-- `strings.Contains` on `String`s. -/
def strContainsSub (s pat : String) : Bool := containsSub s.data pat.data

/-! ## Decimal integer formatting and parsing
(`strconv.Itoa` and `strconv.Atoi`).  Both functions work on the byte
level: `[]byte(strconv.Itoa n)` is a list of ASCII codes, and
`strconv.Atoi(string(decoded))` examines the bytes of its argument. -/

/-- Little-endian decimal digits of `n` (empty for `0`). -/
def decRev (n : Nat) : List Nat :=
  if h : n = 0 then [] else n % 10 :: decRev (n / 10)
decreasing_by exact Nat.div_lt_self (Nat.pos_of_ne_zero h) (by omega)

/-- ASCII bytes of the decimal representation of a natural number,
as produced by `strconv.Itoa` for non-negative values. -/
def natToDecBytes (n : Nat) : List Nat :=
  if n = 0 then [48] else (decRev n).reverse.map (· + 48)

/-- ASCII bytes of `strconv.Itoa i` (a leading `'-'` byte, 45, for
negative values). -/
def itoaBytes (i : Int) : List Nat :=
  if i < 0 then 45 :: natToDecBytes i.natAbs else natToDecBytes i.natAbs

/-- Value of a big-endian list of ASCII digit bytes, accumulated exactly
like the `strconv` parse loop. -/
def digitsVal (bs : List Nat) : Nat :=
  bs.foldl (fun a d => a * 10 + (d - 48)) 0

/-- Are all bytes ASCII digits? -/
def allDigits (bs : List Nat) : Bool :=
  bs.all fun d => 48 ≤ d ∧ d ≤ 57

/-- Unsigned decimal parse on bytes: at least one byte, all digits
(`strconv.ParseUint`, before the signed range check). -/
def parseUintBytes (bs : List Nat) : Option Nat :=
  if bs.isEmpty then none
  else if allDigits bs then some (digitsVal bs) else none

/-- `strconv.Atoi` on the bytes of its argument: optional sign byte,
digits, and the 64-bit `int` range check (`ErrRange` outside it). -/
def atoiBytes (bs : List Nat) : Option Int :=
  match bs with
  | [] => none
  | b :: rest =>
    if b = 43 then
      (parseUintBytes rest).bind fun u =>
        if u ≤ 2 ^ 63 - 1 then some (u : Int) else none
    else if b = 45 then
      (parseUintBytes rest).bind fun u =>
        if u ≤ 2 ^ 63 then some (-(u : Int)) else none
    else
      (parseUintBytes bs).bind fun u =>
        if u ≤ 2 ^ 63 - 1 then some (u : Int) else none

/-! ### Decimal round-trip lemmas -/

/-- Value of a little-endian digit list. -/
def ofRev : List Nat → Nat
  | [] => 0
  | d :: ds => d + 10 * ofRev ds

theorem ofRev_decRev (n : Nat) : ofRev (decRev n) = n := by
  induction n using Nat.strong_induction_on with
  | _ n ih =>
    rw [decRev]
    by_cases h : n = 0
    · simp [h, ofRev]
    · simp only [h, dite_false, ofRev]
      rw [ih (n / 10) (Nat.div_lt_self (Nat.pos_of_ne_zero h) (by omega))]
      omega

theorem decRev_digits_lt (n : Nat) : ∀ d ∈ decRev n, d < 10 := by
  induction n using Nat.strong_induction_on with
  | _ n ih =>
    rw [decRev]
    by_cases h : n = 0
    · simp [h]
    · simp only [h, dite_false, List.mem_cons]
      rintro d (rfl | hd)
      · exact Nat.mod_lt _ (by omega)
      · exact ih (n / 10) (Nat.div_lt_self (Nat.pos_of_ne_zero h) (by omega)) d hd

theorem digitsVal_rev_map (l : List Nat) (acc : Nat) :
    (l.reverse.map (· + 48)).foldl (fun a d => a * 10 + (d - 48)) acc
      = acc * 10 ^ l.length + ofRev l := by
  induction l generalizing acc with
  | nil => simp [ofRev]
  | cons d ds ih =>
    simp only [List.reverse_cons, List.map_append, List.foldl_append,
      List.map_cons, List.map_nil, List.foldl_cons, List.foldl_nil, ih,
      ofRev, List.length_cons]
    have : d + 48 - 48 = d := by omega
    rw [this, pow_succ]
    ring

theorem natToDecBytes_allDigits (n : Nat) : allDigits (natToDecBytes n) = true := by
  unfold natToDecBytes
  by_cases h : n = 0
  · simp [h, allDigits]
  · simp only [h, ite_false, allDigits, List.all_eq_true, List.mem_map,
      List.mem_reverse]
    rintro b ⟨d, hd, rfl⟩
    have := decRev_digits_lt n d hd
    simp only [decide_eq_true_eq]
    omega

theorem natToDecBytes_ne_nil (n : Nat) : natToDecBytes n ≠ [] := by
  unfold natToDecBytes
  by_cases h : n = 0
  · simp [h]
  · simp only [h, ite_false, ne_eq, List.map_eq_nil_iff, List.reverse_eq_nil_iff]
    intro hcon
    have := ofRev_decRev n
    rw [hcon] at this
    simp [ofRev] at this
    omega

theorem parseUint_natToDecBytes (n : Nat) :
    parseUintBytes (natToDecBytes n) = some n := by
  unfold parseUintBytes
  rw [if_neg (by simpa [List.isEmpty_iff] using natToDecBytes_ne_nil n),
    if_pos (natToDecBytes_allDigits n)]
  congr 1
  unfold natToDecBytes digitsVal
  by_cases h : n = 0
  · simp [h]
  · simp only [h, ite_false]
    rw [digitsVal_rev_map]
    simp [ofRev_decRev]

theorem natToDecBytes_head_digit (n : Nat) :
    ∃ b rest, natToDecBytes n = b :: rest ∧ 48 ≤ b ∧ b ≤ 57 := by
  have hall := natToDecBytes_allDigits n
  have hne := natToDecBytes_ne_nil n
  cases hnd : natToDecBytes n with
  | nil => exact absurd hnd hne
  | cons b rest =>
    refine ⟨b, rest, rfl, ?_⟩
    rw [hnd] at hall
    simp only [allDigits, List.all_cons, Bool.and_eq_true, decide_eq_true_eq] at hall
    exact hall.1

/-- `atoiBytes` on a list whose head is neither sign byte. -/
theorem atoiBytes_cons_digit (b : Nat) (rest : List Nat)
    (h43 : b ≠ 43) (h45 : b ≠ 45) :
    atoiBytes (b :: rest) = (parseUintBytes (b :: rest)).bind
      (fun u => if u ≤ 2 ^ 63 - 1 then some (u : Int) else none) := by
  simp [atoiBytes, h43, h45]

/-- `strconv.Atoi ∘ strconv.Itoa` is the identity on the 64-bit `int`
range. -/
theorem atoi_itoaBytes (i : Int) (hlo : -(2 ^ 63) ≤ i) (hhi : i ≤ 2 ^ 63 - 1) :
    atoiBytes (itoaBytes i) = some i := by
  unfold itoaBytes
  by_cases hneg : i < 0
  · have hle : i.natAbs ≤ 2 ^ 63 := by omega
    have h1 : atoiBytes (45 :: natToDecBytes i.natAbs)
        = (parseUintBytes (natToDecBytes i.natAbs)).bind
          (fun u => if u ≤ 2 ^ 63 then some (-(u : Int)) else none) := by
      simp [atoiBytes]
    simp only [hneg, ite_true, h1, parseUint_natToDecBytes, Option.some_bind']
    rw [if_pos hle]
    congr 1
    omega
  · have hle : i.natAbs ≤ 2 ^ 63 - 1 := by omega
    simp only [hneg, ite_false]
    obtain ⟨b, rest, heq, hb1, hb2⟩ := natToDecBytes_head_digit i.natAbs
    rw [heq, atoiBytes_cons_digit b rest (by omega) (by omega), ← heq,
      parseUint_natToDecBytes, Option.some_bind', if_pos hle]
    congr 1
    omega

/-! ## Base64 (Go `encoding/base64`, `StdEncoding`)
`EncodeToString` turns bytes into the standard alphabet with `=`
padding; `DecodeString` ignores `\r`/`\n`, requires a padded multiple of
four characters, and rejects any character outside the alphabet (it does
not check the unused trailing bits — `StdEncoding` is not strict). -/

/-- The standard base64 alphabet. -/
def b64Chars : List Char :=
  "ABCDEFGHIJKLMNOPQRSTUVWXYZabcdefghijklmnopqrstuvwxyz0123456789+/".data

/-- Character for a 6-bit value. -/
def encC (n : Nat) : Char := b64Chars.getD n 'A'

/-- 6-bit value of an alphabet character (`none` outside the alphabet,
in particular for `=`). -/
def decC (c : Char) : Option Nat := b64Chars.indexOf? c

/-- `base64.StdEncoding.EncodeToString` on a byte list. -/
def base64Encode : List Nat → List Char
  | [] => []
  | [b0] => [encC (b0 / 4), encC (b0 % 4 * 16), '=', '=']
  | [b0, b1] => [encC (b0 / 4), encC (b0 % 4 * 16 + b1 / 16), encC (b1 % 16 * 4), '=']
  | b0 :: b1 :: b2 :: rest =>
      encC (b0 / 4) :: encC (b0 % 4 * 16 + b1 / 16) ::
        encC (b1 % 16 * 4 + b2 / 64) :: encC (b2 % 64) :: base64Encode rest

/-- Decode a padded base64 character stream, four characters at a time
(`\r`/`\n` already removed). -/
def base64DecodeQuads : List Char → Option (List Nat)
  | [] => some []
  | c0 :: c1 :: c2 :: c3 :: rest => do
      let n0 ← decC c0
      let n1 ← decC c1
      if c2 = '=' then
        if c3 = '=' ∧ rest = [] then pure [n0 * 4 + n1 / 16] else none
      else do
        let n2 ← decC c2
        if c3 = '=' then
          if rest = [] then pure [n0 * 4 + n1 / 16, n1 % 16 * 16 + n2 / 4]
          else none
        else do
          let n3 ← decC c3
          let tl ← base64DecodeQuads rest
          pure ((n0 * 4 + n1 / 16) :: (n1 % 16 * 16 + n2 / 4) ::
            (n2 % 4 * 64 + n3) :: tl)
  | _ => none

/-- Characters Go's base64 decoder skips. -/
def stripCRLF (l : List Char) : List Char :=
  l.filter fun c => !(c = '\n' ∨ c = '\r')

/-- `base64.StdEncoding.DecodeString` on the characters of a token. -/
def base64Decode (l : List Char) : Option (List Nat) :=
  base64DecodeQuads (stripCRLF l)

/-! ### Base64 round-trip lemmas -/

theorem decC_encC : ∀ k, k < 64 → decC (encC k) = some k := by decide

theorem encC_ne_pad : ∀ k, k < 64 → encC k ≠ '=' := by decide

theorem encC_ne_crlf : ∀ k, k < 64 → encC k ≠ '\n' ∧ encC k ≠ '\r' := by decide

theorem base64Encode_no_crlf (bs : List Nat) (h : ∀ b ∈ bs, b < 256) :
    ∀ c ∈ base64Encode bs, ¬(c = '\n' ∨ c = '\r') := by
  induction bs using base64Encode.induct with
  | case1 => simp [base64Encode]
  | case2 b0 =>
    have h0 := h b0 (by simp)
    intro c hc
    simp only [base64Encode, List.mem_cons, List.not_mem_nil, or_false] at hc
    rcases hc with rfl | rfl | rfl | rfl
    · have := encC_ne_crlf (b0 / 4) (by omega); simp [this.1, this.2]
    · have := encC_ne_crlf (b0 % 4 * 16) (by omega); simp [this.1, this.2]
    · decide
    · decide
  | case3 b0 b1 =>
    have h0 := h b0 (by simp)
    have h1 := h b1 (by simp)
    intro c hc
    simp only [base64Encode, List.mem_cons, List.not_mem_nil, or_false] at hc
    rcases hc with rfl | rfl | rfl | rfl
    · have := encC_ne_crlf (b0 / 4) (by omega); simp [this.1, this.2]
    · have := encC_ne_crlf (b0 % 4 * 16 + b1 / 16) (by omega); simp [this.1, this.2]
    · have := encC_ne_crlf (b1 % 16 * 4) (by omega); simp [this.1, this.2]
    · decide
  | case4 b0 b1 b2 rest ih =>
    have h0 := h b0 (by simp)
    have h1 := h b1 (by simp)
    have h2 := h b2 (by simp)
    have ih' := ih fun b hb => h b (by simp [hb])
    intro c hc
    simp only [base64Encode, List.mem_cons] at hc
    rcases hc with rfl | rfl | rfl | rfl | hmem
    · have := encC_ne_crlf (b0 / 4) (by omega); simp [this.1, this.2]
    · have := encC_ne_crlf (b0 % 4 * 16 + b1 / 16) (by omega); simp [this.1, this.2]
    · have := encC_ne_crlf (b1 % 16 * 4 + b2 / 64) (by omega); simp [this.1, this.2]
    · have := encC_ne_crlf (b2 % 64) (by omega); simp [this.1, this.2]
    · exact ih' c hmem

theorem stripCRLF_base64Encode (bs : List Nat) (h : ∀ b ∈ bs, b < 256) :
    stripCRLF (base64Encode bs) = base64Encode bs := by
  unfold stripCRLF
  rw [List.filter_eq_self]
  intro c hc
  have := base64Encode_no_crlf bs h c hc
  simpa using this

theorem base64DecodeQuads_encode (bs : List Nat) (h : ∀ b ∈ bs, b < 256) :
    base64DecodeQuads (base64Encode bs) = some bs := by
  induction bs using base64Encode.induct with
  | case1 => simp [base64Encode, base64DecodeQuads]
  | case2 b0 =>
    have h0 := h b0 (by simp)
    simp only [base64Encode, base64DecodeQuads]
    rw [decC_encC (b0 / 4) (by omega), decC_encC (b0 % 4 * 16) (by omega)]
    simp only [Option.bind_eq_bind, Option.some_bind']
    simp only [and_self, ite_true, pure, Option.some.injEq, List.cons.injEq, and_true]
    omega
  | case3 b0 b1 =>
    have h0 := h b0 (by simp)
    have h1 := h b1 (by simp)
    simp only [base64Encode, base64DecodeQuads]
    rw [decC_encC (b0 / 4) (by omega), decC_encC (b0 % 4 * 16 + b1 / 16) (by omega)]
    simp only [Option.bind_eq_bind, Option.some_bind']
    rw [if_neg (encC_ne_pad (b1 % 16 * 4) (by omega)),
      decC_encC (b1 % 16 * 4) (by omega)]
    simp only [Option.bind_eq_bind, Option.some_bind']
    simp only [ite_true, pure, Option.some.injEq, List.cons.injEq, and_true]
    omega
  | case4 b0 b1 b2 rest ih =>
    have h0 := h b0 (by simp)
    have h1 := h b1 (by simp)
    have h2 := h b2 (by simp)
    have ih' := ih fun b hb => h b (by simp [hb])
    simp only [base64Encode, base64DecodeQuads]
    rw [decC_encC (b0 / 4) (by omega), decC_encC (b0 % 4 * 16 + b1 / 16) (by omega)]
    simp only [Option.bind_eq_bind, Option.some_bind']
    rw [if_neg (encC_ne_pad (b1 % 16 * 4 + b2 / 64) (by omega)),
      decC_encC (b1 % 16 * 4 + b2 / 64) (by omega)]
    simp only [Option.bind_eq_bind, Option.some_bind']
    rw [if_neg (encC_ne_pad (b2 % 64) (by omega)), decC_encC (b2 % 64) (by omega)]
    simp only [Option.bind_eq_bind, Option.some_bind', ih']
    simp only [pure, Option.some.injEq, List.cons.injEq, and_true]
    omega

/-- Round trip of the Go base64 codec on byte lists. -/
theorem base64_roundtrip (bs : List Nat) (h : ∀ b ∈ bs, b < 256) :
    base64Decode (base64Encode bs) = some bs := by
  rw [base64Decode, stripCRLF_base64Encode bs h, base64DecodeQuads_encode bs h]

/-! ## The pagination token codec, as inlined in every `List` method -/

/-- Offset resolution of every `List` method: absent or empty token ⇒ 0;
otherwise `base64.StdEncoding.DecodeString` then `strconv.Atoi`, each
failure falling back to 0. -/
def decodePageOffset (token : Option String) : Int :=
  match token with
  | none => 0
  | some t =>
    if t = "" then 0
    else
      match base64Decode t.data with
      | none => 0
      | some bytes =>
        match atoiBytes bytes with
        | none => 0
        | some k => k

/-- Next-page token production of every `List` method:
`base64.StdEncoding.EncodeToString([]byte(strconv.Itoa nextOffset))`. -/
def encodePageToken (nextOffset : Int) : String :=
  String.mk (base64Encode (itoaBytes nextOffset))

theorem itoaBytes_bytes_lt (i : Int) : ∀ b ∈ itoaBytes i, b < 256 := by
  have hdig : ∀ n, ∀ b ∈ natToDecBytes n, b < 256 := by
    intro n b hb
    have := natToDecBytes_allDigits n
    simp only [allDigits, List.all_eq_true, decide_eq_true_eq] at this
    have := this b hb
    omega
  unfold itoaBytes
  by_cases hneg : i < 0
  · simp only [hneg, ite_true, List.mem_cons]
    rintro b (rfl | hb)
    · omega
    · exact hdig _ b hb
  · simp only [hneg, ite_false]
    exact hdig _

theorem base64Encode_itoa_ne_nil (i : Int) : base64Encode (itoaBytes i) ≠ [] := by
  unfold itoaBytes
  by_cases hneg : i < 0
  · simp only [hneg, ite_true]
    obtain ⟨b, rest, heq, -, -⟩ := natToDecBytes_head_digit i.natAbs
    rw [heq]
    cases rest with
    | nil => simp [base64Encode]
    | cons c cs => cases cs <;> simp [base64Encode]
  · simp only [hneg, ite_false]
    obtain ⟨b, rest, heq, -, -⟩ := natToDecBytes_head_digit i.natAbs
    rw [heq]
    cases rest with
    | nil => simp [base64Encode]
    | cons c cs => cases cs <;> simp [base64Encode]

/-- Decoding the token produced for `nextOffset` recovers `nextOffset`,
for every value representable as a Go `int`. -/
theorem decode_encodePageToken (i : Int) (hlo : -(2 ^ 63) ≤ i) (hhi : i ≤ 2 ^ 63 - 1) :
    decodePageOffset (some (encodePageToken i)) = i := by
  have hne := base64Encode_itoa_ne_nil i
  simp only [decodePageOffset, encodePageToken]
  rw [if_neg (by simpa [String.ext_iff] using hne)]
  rw [base64_roundtrip _ (itoaBytes_bytes_lt i)]
  simp [atoi_itoaBytes i hlo hhi]

/-- The produced token is never the empty string. -/
theorem encodePageToken_ne_empty (i : Int) : encodePageToken i ≠ "" := by
  have hne := base64Encode_itoa_ne_nil i
  unfold encodePageToken
  simpa [String.ext_iff] using hne

/-! ## Data model (`internal/store/model`)
`time.Time` is an opaque `Nat`; schema-less JSON payloads (the
`ServiceType` spec, field defaults and validation schemas, user values)
are carried as their serialized text, which the store never inspects. -/

structure Metadata where
  Labels : List (String × String)
deriving DecidableEq, Repr

structure ServiceType where
  ID : String
  ApiVersion : String
  ServiceType : String
  Metadata : Metadata
  Spec : String
  Path : String
  CreateTime : Nat
  UpdateTime : Nat
deriving DecidableEq, Repr

structure FieldConfiguration where
  Path : String
  DisplayName : String
  Editable : Bool
  Default : String
  ValidationSchema : String
deriving DecidableEq, Repr

structure CatalogItemSpec where
  ServiceType : String
  Fields : List FieldConfiguration
deriving DecidableEq, Repr

structure CatalogItem where
  ID : String
  ApiVersion : String
  DisplayName : String
  Spec : CatalogItemSpec
  Path : String
  CreateTime : Nat
  UpdateTime : Nat
  SpecServiceType : String
deriving DecidableEq, Repr

structure UserValue where
  Path : String
  Value : String
deriving DecidableEq, Repr

structure CatalogItemInstanceSpec where
  CatalogItemId : String
  UserValues : List UserValue
deriving DecidableEq, Repr

structure CatalogItemInstance where
  ID : String
  ApiVersion : String
  DisplayName : String
  Spec : CatalogItemInstanceSpec
  ServiceTypeInstanceUid : String
  Path : String
  CreateTime : Nat
  UpdateTime : Nat
  SpecCatalogItemId : String
deriving DecidableEq, Repr

/-- The three tables of the relational backend. -/
structure DBState where
  serviceTypes : List ServiceType
  catalogItems : List CatalogItem
  catalogItemInstances : List CatalogItemInstance
deriving DecidableEq, Repr

/-! ## Errors
A raw backend error is its message text plus whether
`errors.Is(err, gorm.ErrDuplicatedKey)` holds (GORM error translation).
Store results carry either a raw backend error, a raw error wrapped with
`fmt.Errorf` context, or one of the package sentinel errors. -/

structure RawError where
  msg : String
  isDuplicatedKey : Bool
deriving DecidableEq, Repr

inductive StoreError where
  | raw (e : RawError)
  | wrapped (ctx : String) (e : RawError)
  | errServiceTypeNotFound
  | errServiceTypeIDTaken
  | errServiceTypeServiceTypeTaken
  | errCatalogItemNotFound
  | errCatalogItemIDTaken
  | errCatalogItemHasInstances
  | errCatalogItemInstanceNotFound
  | errCatalogItemInstanceIDTaken
  | errCatalogItemNotFoundRef
deriving DecidableEq, Repr

/-! ## Error-text tests used by the stores -/

/-- Foreign-key test of `catalogItemStore.mapConstraintError` and
`catalogItemInstanceStore.mapConstraintError`:
`strings.Contains(errStr, "foreign key") ||
 strings.Contains(errStr, "violates foreign key constraint")`
on the lowered message. -/
def fkIndicated (e : RawError) : Bool :=
  strContainsSub (lowerStr e.msg) "foreign key" ||
    strContainsSub (lowerStr e.msg) "violates foreign key constraint"

/-- Foreign-key test of `catalogItemStore.Update` / `Delete` (and the
instance store's `Update`): one further needle for the sqlite dialect. -/
def fkIndicatedUD (e : RawError) : Bool :=
  strContainsSub (lowerStr e.msg) "foreign key" ||
    strContainsSub (lowerStr e.msg) "violates foreign key constraint" ||
    strContainsSub (lowerStr e.msg) "constraint failed: foreign key"

/-- Uniqueness test shared by both `Create` classifiers:
`errors.Is(err, gorm.ErrDuplicatedKey)`, or `"unique"` in the lowered
message, or `"duplicate key"` in the raw message. -/
def uniqueIndicated (e : RawError) : Bool :=
  e.isDuplicatedKey || strContainsSub (lowerStr e.msg) "unique" ||
    strContainsSub e.msg "duplicate key"

/-! ## Row lookups used by the classifiers (secondary confirmation
queries, `First` under a `Where`) -/

/-- Is there a `service_types` row with this `id`? -/
def serviceTypeIdExists (st : DBState) (id : String) : Bool :=
  st.serviceTypes.any fun r => r.ID == id

/-- Is there a `service_types` row with this `service_type` value? -/
def serviceTypeValueExists (st : DBState) (v : String) : Bool :=
  st.serviceTypes.any fun r => r.ServiceType == v

/-- Is there a `catalog_items` row with this `id`? -/
def catalogItemIdExists (st : DBState) (id : String) : Bool :=
  st.catalogItems.any fun r => r.ID == id

/-- Is there a `catalog_item_instances` row with this `id`? -/
def catalogItemInstanceIdExists (st : DBState) (id : String) : Bool :=
  st.catalogItemInstances.any fun r => r.ID == id

/-- Is some `catalog_item_instances` row referencing this catalog item
through its denormalized `spec_catalog_item_id` column? -/
def instanceReferences (st : DBState) (id : String) : Bool :=
  st.catalogItemInstances.any fun r => r.SpecCatalogItemId == id

/-! ## Constraint classifiers -/

/-- `serviceTypeStore.mapUniqueConstraintError`: screen the raw error for
a uniqueness indication; then run the two candidate checks in order
(`id`, then `service_type`); fall back to the original error. -/
def mapUniqueConstraintErrorST (st : DBState) (e : RawError)
    (attempted : ServiceType) : StoreError :=
  if ¬ uniqueIndicated e then .raw e
  else if serviceTypeIdExists st attempted.ID then .errServiceTypeIDTaken
  else if serviceTypeValueExists st attempted.ServiceType then
    .errServiceTypeServiceTypeTaken
  else .raw e

/-- `catalogItemStore.mapConstraintError`: a foreign-key-looking failure
is confirmed by looking the attempted `spec_service_type` up (absence ⇒
`ErrServiceTypeNotFound`, presence ⇒ the original error — the inner
`err` of the Go lookup shadows the outer one, so the function falls
through to `return err`); otherwise a uniqueness-looking failure is
confirmed by looking the attempted `id` up (presence ⇒
`ErrCatalogItemIDTaken`, absence ⇒ the original error). -/
def mapConstraintErrorCI (st : DBState) (e : RawError)
    (attempted : CatalogItem) : StoreError :=
  if fkIndicated e then
    if serviceTypeValueExists st attempted.SpecServiceType then .raw e
    else .errServiceTypeNotFound
  else if uniqueIndicated e then
    if catalogItemIdExists st attempted.ID then .errCatalogItemIDTaken
    else .raw e
  else .raw e

/-- `catalogItemInstanceStore.mapConstraintError`: same two-step shape
one tier down (`spec_catalog_item_id` against `catalog_items`, then the
attempted `id`). -/
def mapConstraintErrorCII (st : DBState) (e : RawError)
    (attempted : CatalogItemInstance) : StoreError :=
  if fkIndicated e then
    if catalogItemIdExists st attempted.SpecCatalogItemId then .raw e
    else .errCatalogItemNotFoundRef
  else if uniqueIndicated e then
    if catalogItemInstanceIdExists st attempted.ID then
      .errCatalogItemInstanceIDTaken
    else .raw e
  else .raw e

/-! ## `List`: ordered, filtered, offset/limited queries
`ORDER BY <key> ASC` is modelled by a stable insertion sort on the key,
`LIMIT n OFFSET k` by `take`/`drop` (GORM omits the clauses for
non-positive values, which coincides with `Int.toNat` truncation). -/

/-- Lexicographic comparison on code points, the byte order the
relational backend sorts text by. -/
def strLtChars : List Char → List Char → Bool
  | [], [] => false
  | [], _ :: _ => true
  | _ :: _, [] => false
  | a :: as, b :: bs =>
    if a.toNat < b.toNat then true
    else if b.toNat < a.toNat then false
    else strLtChars as bs

/-- `a ≤ b` on strings, as `¬ b < a`. -/
def strLe (a b : String) : Bool := !(strLtChars b.data a.data)

/-- Insert into a key-sorted list. -/
def insertByKey (key : α → String) (x : α) : List α → List α
  | [] => [x]
  | y :: ys => if strLe (key x) (key y) then x :: y :: ys
    else y :: insertByKey key x ys

/-- Stable sort by a string key: the relational `ORDER BY key ASC`. -/
def sortByKey (key : α → String) : List α → List α
  | [] => []
  | x :: xs => insertByKey key x (sortByKey key xs)

/-- `LIMIT (pageSize+1) OFFSET offset` over the ordered rows. -/
def sliceRows (rows : List α) (pageSize offset : Int) : List α :=
  (rows.drop offset.toNat).take (pageSize + 1).toNat

/-- Effective page size of every `List` method: the caller's value when
positive, else the default 50. -/
def effPageSize (ps : Int) : Int := if ps > 0 then ps else 50

/-! ### ServiceTypeStore.List -/

structure ServiceTypeListOptions where
  PageToken : Option String
  PageSize : Int

structure ServiceTypeListResult where
  ServiceTypes : List ServiceType
  NextPageToken : Option String
deriving DecidableEq, Repr

/-- The rows `serviceTypeStore.List` queries: `ORDER BY service_type
ASC LIMIT pageSize+1 OFFSET offset` over the whole table. -/
def serviceTypeQueried (table : List ServiceType) (pageSize offset : Int) :
    List ServiceType :=
  sliceRows (sortByKey (fun r => r.ServiceType) table) pageSize offset

/-- Body of `serviceTypeStore.List` after page size and offset are
resolved: run the query, then trim and emit the next token when more
rows came back. -/
def serviceTypeListCore (table : List ServiceType) (pageSize offset : Int) :
    ServiceTypeListResult :=
  let serviceTypes := serviceTypeQueried table pageSize offset
  if (serviceTypes.length : Int) > pageSize then
    { ServiceTypes := serviceTypes.take pageSize.toNat
      NextPageToken := some (encodePageToken (offset + pageSize)) }
  else
    { ServiceTypes := serviceTypes, NextPageToken := none }

/-- `serviceTypeStore.List`. -/
def serviceTypeList (table : List ServiceType) (opts : ServiceTypeListOptions) :
    ServiceTypeListResult :=
  serviceTypeListCore table (effPageSize opts.PageSize)
    (decodePageOffset opts.PageToken)

/-! ### CatalogItemStore.List -/

structure CatalogItemListOptions where
  PageToken : Option String
  PageSize : Int
  ServiceType : String

structure CatalogItemListResult where
  CatalogItems : List CatalogItem
  NextPageToken : String
deriving DecidableEq, Repr

/-- The optional exact-match `spec_service_type` filter of
`catalogItemStore.List`. -/
def catalogItemFiltered (table : List CatalogItem) (serviceType : String) :
    List CatalogItem :=
  if serviceType ≠ "" then
    table.filter (fun r => r.SpecServiceType == serviceType) else table

/-- The rows `catalogItemStore.List` queries: the filter, then `ORDER BY
id ASC LIMIT pageSize+1 OFFSET offset`. -/
def catalogItemQueried (table : List CatalogItem) (serviceType : String)
    (pageSize offset : Int) : List CatalogItem :=
  sliceRows (sortByKey (fun r => r.ID) (catalogItemFiltered table serviceType))
    pageSize offset

/-- Body of `catalogItemStore.List` after page size and offset are
resolved. -/
def catalogItemListCore (table : List CatalogItem) (serviceType : String)
    (pageSize offset : Int) : CatalogItemListResult :=
  let catalogItems := catalogItemQueried table serviceType pageSize offset
  if (catalogItems.length : Int) > pageSize then
    { CatalogItems := catalogItems.take pageSize.toNat
      NextPageToken := encodePageToken (offset + pageSize) }
  else
    { CatalogItems := catalogItems, NextPageToken := "" }

/-- `catalogItemStore.List`. -/
def catalogItemList (table : List CatalogItem) (opts : CatalogItemListOptions) :
    CatalogItemListResult :=
  catalogItemListCore table opts.ServiceType (effPageSize opts.PageSize)
    (decodePageOffset opts.PageToken)

/-! ### CatalogItemInstanceStore.List -/

structure CatalogItemInstanceListOptions where
  PageToken : Option String
  PageSize : Int
  CatalogItemId : String

structure CatalogItemInstanceListResult where
  CatalogItemInstances : List CatalogItemInstance
  NextPageToken : String
deriving DecidableEq, Repr

/-- The optional exact-match `spec_catalog_item_id` filter of
`catalogItemInstanceStore.List`. -/
def instanceFiltered (table : List CatalogItemInstance)
    (catalogItemId : String) : List CatalogItemInstance :=
  if catalogItemId ≠ "" then
    table.filter (fun r => r.SpecCatalogItemId == catalogItemId) else table

/-- The rows `catalogItemInstanceStore.List` queries. -/
def instanceQueried (table : List CatalogItemInstance) (catalogItemId : String)
    (pageSize offset : Int) : List CatalogItemInstance :=
  sliceRows (sortByKey (fun r => r.ID) (instanceFiltered table catalogItemId))
    pageSize offset

/-- Body of `catalogItemInstanceStore.List` after page size and offset
are resolved. -/
def catalogItemInstanceListCore (table : List CatalogItemInstance)
    (catalogItemId : String) (pageSize offset : Int) :
    CatalogItemInstanceListResult :=
  let rows := instanceQueried table catalogItemId pageSize offset
  if (rows.length : Int) > pageSize then
    { CatalogItemInstances := rows.take pageSize.toNat
      NextPageToken := encodePageToken (offset + pageSize) }
  else
    { CatalogItemInstances := rows, NextPageToken := "" }

/-- `catalogItemInstanceStore.List`. -/
def catalogItemInstanceList (table : List CatalogItemInstance)
    (opts : CatalogItemInstanceListOptions) : CatalogItemInstanceListResult :=
  catalogItemInstanceListCore table opts.CatalogItemId
    (effPageSize opts.PageSize) (decodePageOffset opts.PageToken)

/-! ## Write primitives of the relational backend
The repository's test suite runs the stores against sqlite, whose
constraint-violation texts are `"UNIQUE constraint failed: <table>.<col>"`
and `"FOREIGN KEY constraint failed"`; GORM error translation is not
enabled, so `errors.Is(err, gorm.ErrDuplicatedKey)` is false and the
stores classify by message text. -/

def sqliteUniqueErr (tableCol : String) : RawError :=
  { msg := "UNIQUE constraint failed: " ++ tableCol, isDuplicatedKey := false }

def sqliteFKErr : RawError :=
  { msg := "FOREIGN KEY constraint failed", isDuplicatedKey := false }

/-- Outcome of one GORM write: `result.Error` and `result.RowsAffected`. -/
structure GoWriteResult where
  error : Option RawError
  rowsAffected : Int
deriving DecidableEq, Repr

/-! ## ServiceTypeStore.Create / Get -/

/-- `INSERT` into `service_types`: the `id` primary key and the
`service_type` unique index, then append with server-side timestamps
(`autoCreateTime` / `autoUpdateTime`). -/
def dbCreateServiceType (st : DBState) (now : Nat) (v : ServiceType) :
    Except RawError (DBState × ServiceType) :=
  if serviceTypeIdExists st v.ID then
    .error (sqliteUniqueErr "service_types.id")
  else if serviceTypeValueExists st v.ServiceType then
    .error (sqliteUniqueErr "service_types.service_type")
  else
    let row := { v with CreateTime := now, UpdateTime := now }
    .ok ({ st with serviceTypes := st.serviceTypes ++ [row] }, row)

/-- `serviceTypeStore.Create`: insert, classify any failure. -/
def serviceTypeCreate (st : DBState) (now : Nat) (v : ServiceType) :
    DBState × Except StoreError ServiceType :=
  match dbCreateServiceType st now v with
  | .error e => (st, .error (mapUniqueConstraintErrorST st e v))
  | .ok (st', row) => (st', .ok row)

/-- `serviceTypeStore.Get`: `First` under `id = ?` (ordered by primary
key); an empty result maps to `ErrServiceTypeNotFound`. -/
def serviceTypeGet (st : DBState) (id : String) : Except StoreError ServiceType :=
  match (sortByKey (fun r => r.ID) st.serviceTypes).find? (fun r => r.ID == id) with
  | none => .error .errServiceTypeNotFound
  | some r => .ok r

/-! ## CatalogItemStore.Create / Get -/

/-- `INSERT` into `catalog_items`: `id` primary key, and the
`spec_service_type → service_types.service_type` foreign key. -/
def dbCreateCatalogItem (st : DBState) (now : Nat) (v : CatalogItem) :
    Except RawError (DBState × CatalogItem) :=
  if catalogItemIdExists st v.ID then
    .error (sqliteUniqueErr "catalog_items.id")
  else if ¬ serviceTypeValueExists st v.SpecServiceType then
    .error sqliteFKErr
  else
    let row := { v with CreateTime := now, UpdateTime := now }
    .ok ({ st with catalogItems := st.catalogItems ++ [row] }, row)

/-- `catalogItemStore.Create`: copy `Spec.ServiceType` into the
denormalized column, insert, classify any failure. -/
def catalogItemCreate (st : DBState) (now : Nat) (item : CatalogItem) :
    DBState × Except StoreError CatalogItem :=
  let v := { item with SpecServiceType := item.Spec.ServiceType }
  match dbCreateCatalogItem st now v with
  | .error e => (st, .error (mapConstraintErrorCI st e v))
  | .ok (st', row) => (st', .ok row)

/-- The raw error produced when a failed `catalogItemStore.Create` write
is classified (the denormalized column has already been recomputed). -/
def catalogItemCreateFailure (st : DBState) (e : RawError) (item : CatalogItem) :
    StoreError :=
  mapConstraintErrorCI st e { item with SpecServiceType := item.Spec.ServiceType }

/-- `catalogItemStore.Get`. -/
def catalogItemGet (st : DBState) (id : String) : Except StoreError CatalogItem :=
  match (sortByKey (fun r => r.ID) st.catalogItems).find? (fun r => r.ID == id) with
  | none => .error .errCatalogItemNotFound
  | some r => .ok r

/-! ## CatalogItemInstanceStore.Create / Get -/

/-- `INSERT` into `catalog_item_instances`: `id` primary key, and the
`spec_catalog_item_id → catalog_items.id` foreign key. -/
def dbCreateCatalogItemInstance (st : DBState) (now : Nat)
    (v : CatalogItemInstance) : Except RawError (DBState × CatalogItemInstance) :=
  if catalogItemInstanceIdExists st v.ID then
    .error (sqliteUniqueErr "catalog_item_instances.id")
  else if ¬ catalogItemIdExists st v.SpecCatalogItemId then
    .error sqliteFKErr
  else
    let row := { v with CreateTime := now, UpdateTime := now }
    .ok ({ st with catalogItemInstances := st.catalogItemInstances ++ [row] }, row)

/-- `catalogItemInstanceStore.Create`. -/
def catalogItemInstanceCreate (st : DBState) (now : Nat)
    (inst : CatalogItemInstance) : DBState × Except StoreError CatalogItemInstance :=
  let v := { inst with SpecCatalogItemId := inst.Spec.CatalogItemId }
  match dbCreateCatalogItemInstance st now v with
  | .error e => (st, .error (mapConstraintErrorCII st e v))
  | .ok (st', row) => (st', .ok row)

/-- `catalogItemInstanceStore.Get`. -/
def catalogItemInstanceGet (st : DBState) (id : String) :
    Except StoreError CatalogItemInstance :=
  match (sortByKey (fun r => r.ID) st.catalogItemInstances).find?
      (fun r => r.ID == id) with
  | none => .error .errCatalogItemInstanceNotFound
  | some r => .ok r

/-! ## CatalogItemStore.Update -/

/-- Effect of the restricted `UPDATE ... SET display_name, spec,
spec_service_type` on one row.  The `update_time` column carries the
model's `autoUpdateTime` tag, so GORM also assigns the current time to
it on every update (auto-maintained fields are set even under a
restricting `Select`); `id`, `api_version`, `path` and `create_time`
are untouched. -/
def applyCatalogItemUpdate (r : CatalogItem) (v : CatalogItem) (now : Nat) :
    CatalogItem :=
  { r with
    DisplayName := v.DisplayName
    Spec := v.Spec
    SpecServiceType := v.SpecServiceType
    UpdateTime := now }

/-- `UPDATE catalog_items WHERE id = ?`: no matching row ⇒ zero rows
affected; a `spec_service_type` value naming no service type ⇒ the
foreign-key failure; otherwise each matching row is updated. -/
def dbUpdateCatalogItem (st : DBState) (now : Nat) (v : CatalogItem) :
    DBState × GoWriteResult :=
  let matching := st.catalogItems.filter (fun r => r.ID == v.ID)
  if matching.isEmpty then
    (st, { error := none, rowsAffected := 0 })
  else if ¬ serviceTypeValueExists st v.SpecServiceType then
    (st, { error := some sqliteFKErr, rowsAffected := 0 })
  else
    ({ st with catalogItems := st.catalogItems.map fun r =>
        if r.ID == v.ID then applyCatalogItemUpdate r v now else r },
      { error := none, rowsAffected := (matching.length : Int) })

/-- The part of `catalogItemStore.Update` after the write: a
foreign-key-looking failure maps to `ErrServiceTypeNotFound` with no
confirmation lookup, any other failure is wrapped, and zero affected
rows map to `ErrCatalogItemNotFound`. -/
def catalogItemUpdateClassify (res : GoWriteResult) : Option StoreError :=
  match res.error with
  | some e =>
    if fkIndicatedUD e then some .errServiceTypeNotFound
    else some (.wrapped "failed to update catalog item" e)
  | none =>
    if res.rowsAffected = 0 then some .errCatalogItemNotFound else none

/-- `catalogItemStore.Update`. -/
def catalogItemUpdate (st : DBState) (now : Nat) (item : CatalogItem) :
    DBState × Option StoreError :=
  let v := { item with SpecServiceType := item.Spec.ServiceType }
  let out := dbUpdateCatalogItem st now v
  (out.1, catalogItemUpdateClassify out.2)

/-! ## CatalogItemStore.Delete and CatalogItemInstanceStore.Delete -/

/-- `DELETE FROM catalog_items WHERE id = ?`: deleting a row still
referenced by an instance violates the restrict foreign key; otherwise
the matching rows are removed and counted. -/
def dbDeleteCatalogItem (st : DBState) (id : String) : DBState × GoWriteResult :=
  let matching := st.catalogItems.filter (fun r => r.ID == id)
  if ¬ matching.isEmpty ∧ instanceReferences st id then
    (st, { error := some sqliteFKErr, rowsAffected := 0 })
  else
    ({ st with catalogItems := st.catalogItems.filter fun r => !(r.ID == id) },
      { error := none, rowsAffected := (matching.length : Int) })

/-- The part of `catalogItemStore.Delete` after the write. -/
def catalogItemDeleteClassify (res : GoWriteResult) : Option StoreError :=
  match res.error with
  | some e =>
    if fkIndicatedUD e then some .errCatalogItemHasInstances
    else some (.wrapped "failed to delete catalog item" e)
  | none =>
    if res.rowsAffected = 0 then some .errCatalogItemNotFound else none

/-- `catalogItemStore.Delete`. -/
def catalogItemDelete (st : DBState) (id : String) : DBState × Option StoreError :=
  let out := dbDeleteCatalogItem st id
  (out.1, catalogItemDeleteClassify out.2)

/-- `catalogItemInstanceStore.Delete`: unconditional (nothing references
instances); zero affected rows map to `ErrCatalogItemInstanceNotFound`. -/
def catalogItemInstanceDelete (st : DBState) (id : String) :
    DBState × Option StoreError :=
  let matching := st.catalogItemInstances.filter (fun r => r.ID == id)
  (({ st with catalogItemInstances :=
      st.catalogItemInstances.filter fun r => !(r.ID == id) }),
    if matching.length = 0 then some .errCatalogItemInstanceNotFound else none)

/-! ## Helper lemmas -/

theorem mem_insertByKey {α : Type} (key : α → String) (x a : α) (l : List α) :
    a ∈ insertByKey key x l ↔ a = x ∨ a ∈ l := by
  induction l with
  | nil => simp [insertByKey]
  | cons y ys ih =>
    by_cases h : strLe (key x) (key y) = true
    · simp [insertByKey, h]
    · simp only [insertByKey, h, Bool.false_eq_true, ite_false, List.mem_cons, ih]
      tauto

theorem mem_sortByKey {α : Type} (key : α → String) (a : α) (l : List α) :
    a ∈ sortByKey key l ↔ a ∈ l := by
  induction l with
  | nil => simp [sortByKey]
  | cons y ys ih => simp [sortByKey, mem_insertByKey, ih]

theorem effPageSize_pos (ps : Int) : 1 ≤ effPageSize ps := by
  unfold effPageSize
  split <;> omega

/-- Counting facts about the `LIMIT pageSize+1` slice. -/
theorem sliceRows_length_le {α : Type} (rows : List α) (ps off : Int)
    (hps : 1 ≤ ps) : ((sliceRows rows ps off).length : Int) ≤ ps + 1 := by
  unfold sliceRows
  have h := List.length_take_le (ps + 1).toNat (rows.drop off.toNat)
  have h2 : ((ps + 1).toNat : Int) = ps + 1 := by omega
  omega

theorem take_length_of_longer {α : Type} (l : List α) (ps : Int) (hps : 1 ≤ ps)
    (h : (l.length : Int) > ps) : ((l.take ps.toNat).length : Int) = ps := by
  have := List.length_take ps.toNat l
  have h2 : (ps.toNat : Int) = ps := by omega
  have h3 : ps.toNat ≤ l.length := by omega
  simp only [List.length_take]
  omega

/-! ## Claims -/

/-- **C7.** The pagination codec round-trips: decoding the token
produced by encoding any non-negative offset (any value representable in
the Go `int` in which offsets are held) yields the same offset, and an
absent, empty, or malformed token (invalid base64, or bytes that are not
a parseable decimal integer) decodes to offset 0; the `List` call does
not fail on such a token but behaves exactly as with no token. -/
theorem c7_page_token_codec :
    (∀ i : Int, 0 ≤ i → i ≤ 2 ^ 63 - 1 →
      decodePageOffset (some (encodePageToken i)) = i)
    ∧ decodePageOffset none = 0
    ∧ decodePageOffset (some "") = 0
    ∧ (∀ t : String, base64Decode t.data = none → decodePageOffset (some t) = 0)
    ∧ (∀ t : String, ∀ bs : List Nat, base64Decode t.data = some bs →
        atoiBytes bs = none → decodePageOffset (some t) = 0)
    ∧ (∀ (table : List ServiceType) (t : String) (ps : Int),
        decodePageOffset (some t) = 0 →
        serviceTypeList table { PageToken := some t, PageSize := ps }
          = serviceTypeList table { PageToken := none, PageSize := ps }) := by
  refine ⟨?_, rfl, rfl, ?_, ?_, ?_⟩
  · intro i h0 hhi
    exact decode_encodePageToken i (by omega) hhi
  · intro t hdec
    simp only [decodePageOffset]
    by_cases ht : t = ""
    · simp [ht]
    · rw [if_neg ht, hdec]
  · intro t bs hdec hatoi
    simp only [decodePageOffset]
    by_cases ht : t = ""
    · simp [ht]
    · rw [if_neg ht, hdec]
      simp [hatoi]
  · intro table t ps hdec
    simp only [serviceTypeList, hdec]
    rfl

/-- Witness for C7 at offset 12345 and at a malformed token. -/
theorem c7_witness :
    decodePageOffset (some (encodePageToken 12345)) = 12345
    ∧ decodePageOffset (some "!!!") = 0 := by
  refine ⟨c7_page_token_codec.1 12345 (by norm_num) (by norm_num), ?_⟩
  exact c7_page_token_codec.2.2.2.1 "!!!" (by decide)

/-- **C10.** A well-formed token encoding a negative decimal is accepted
by the decoder and the negative value is the offset every `List` method
hands to its query (and to the next-token computation); it is neither
rejected as malformed nor replaced by 0. -/
theorem c10_negative_token_used :
    ∀ k : Int, -(2 ^ 63) ≤ k → k < 0 →
      decodePageOffset (some (encodePageToken k)) = k
      ∧ (∀ (table : List ServiceType) (opts : ServiceTypeListOptions),
          opts.PageToken = some (encodePageToken k) →
          serviceTypeList table opts
            = serviceTypeListCore table (effPageSize opts.PageSize) k)
      ∧ (∀ (table : List CatalogItem) (opts : CatalogItemListOptions),
          opts.PageToken = some (encodePageToken k) →
          catalogItemList table opts
            = catalogItemListCore table opts.ServiceType
                (effPageSize opts.PageSize) k)
      ∧ (∀ (table : List CatalogItemInstance)
          (opts : CatalogItemInstanceListOptions),
          opts.PageToken = some (encodePageToken k) →
          catalogItemInstanceList table opts
            = catalogItemInstanceListCore table opts.CatalogItemId
                (effPageSize opts.PageSize) k) := by
  intro k hlo hneg
  have hdec : decodePageOffset (some (encodePageToken k)) = k :=
    decode_encodePageToken k hlo (by omega)
  refine ⟨hdec, ?_, ?_, ?_⟩
  · intro table opts hopt
    simp only [serviceTypeList, hopt, hdec]
  · intro table opts hopt
    simp only [catalogItemList, hopt, hdec]
  · intro table opts hopt
    simp only [catalogItemInstanceList, hopt, hdec]

/-- Witness for C10 at offset −5. -/
theorem c10_witness :
    decodePageOffset (some (encodePageToken (-5))) = -5
    ∧ serviceTypeList [] { PageToken := some (encodePageToken (-5)), PageSize := 1 }
        = serviceTypeListCore [] 1 (-5) := by
  have h := c10_negative_token_used (-5) (by norm_num) (by norm_num)
  refine ⟨h.1, ?_⟩
  have h2 := h.2.1 []
    { PageToken := some (encodePageToken (-5)), PageSize := 1 } rfl
  simpa [effPageSize] using h2

/-- **C2.** Classification of a failed `CatalogItemStore.Create` write:
a foreign-key-looking failure yields `ErrServiceTypeNotFound` exactly
when no ServiceType row carries the attempted `Spec.ServiceType` value,
and the original error when one does; otherwise a uniqueness-looking
failure yields `ErrCatalogItemIDTaken` exactly when a row with the
attempted `ID` exists, and the original error when none does. -/
theorem c2_create_constraint_classification :
    ∀ (st : DBState) (e : RawError) (item : CatalogItem),
      (fkIndicated e = true →
        (serviceTypeValueExists st item.Spec.ServiceType = false →
          catalogItemCreateFailure st e item = .errServiceTypeNotFound)
        ∧ (serviceTypeValueExists st item.Spec.ServiceType = true →
          catalogItemCreateFailure st e item = .raw e))
      ∧ (fkIndicated e = false → uniqueIndicated e = true →
        (catalogItemIdExists st item.ID = true →
          catalogItemCreateFailure st e item = .errCatalogItemIDTaken)
        ∧ (catalogItemIdExists st item.ID = false →
          catalogItemCreateFailure st e item = .raw e)) := by
  intro st e item
  constructor
  · intro hfk
    constructor
    · intro habs
      simp [catalogItemCreateFailure, mapConstraintErrorCI, hfk, habs]
    · intro hpres
      simp [catalogItemCreateFailure, mapConstraintErrorCI, hfk, hpres]
  · intro hnfk huniq
    constructor
    · intro hid
      simp [catalogItemCreateFailure, mapConstraintErrorCI, hnfk, huniq, hid]
    · intro hnid
      simp [catalogItemCreateFailure, mapConstraintErrorCI, hnfk, huniq, hnid]

/-- Witness for C2: an sqlite foreign-key failure against a state with
no matching service type, and a uniqueness failure with the id taken. -/
theorem c2_witness :
    catalogItemCreateFailure
        { serviceTypes := [], catalogItems := [], catalogItemInstances := [] }
        sqliteFKErr
        { ID := "small-vm", ApiVersion := "v1alpha1", DisplayName := "Small VM"
          Spec := { ServiceType := "vm", Fields := [] }
          Path := "catalog-items/small-vm", CreateTime := 0, UpdateTime := 0
          SpecServiceType := "" }
      = .errServiceTypeNotFound := by
  have h := (c2_create_constraint_classification
    { serviceTypes := [], catalogItems := [], catalogItemInstances := [] }
    sqliteFKErr
    { ID := "small-vm", ApiVersion := "v1alpha1", DisplayName := "Small VM"
      Spec := { ServiceType := "vm", Fields := [] }
      Path := "catalog-items/small-vm", CreateTime := 0, UpdateTime := 0
      SpecServiceType := "" }).1 (by decide)
  exact h.1 (by decide)

/-! ### C3: the ServiceType create classifier -/

/-- A ServiceType row used in concrete states. -/
def sampleVMServiceType : ServiceType :=
  { ID := "vm-1", ApiVersion := "v1alpha1", ServiceType := "vm"
    Metadata := { Labels := [] }, Spec := "vm-spec-json", Path := "service-types/vm-1"
    CreateTime := 0, UpdateTime := 0 }

/-- A state holding exactly that ServiceType. -/
def c3State : DBState :=
  { serviceTypes := [sampleVMServiceType], catalogItems := []
    catalogItemInstances := [] }

/-- A backend failure that is not a uniqueness violation. -/
def c3Err : RawError := { msg := "connection reset by peer", isDuplicatedKey := false }

/-- An attempted insert whose `ID` collides with the existing row. -/
def c3Attempt : ServiceType :=
  { sampleVMServiceType with ServiceType := "container", Path := "service-types/x" }

/-- **C3 (counterexample).** The claim says the classifier runs its two
existence checks on *every* failed Create write, the first match
winning.  It does not: a failure that is not `gorm.ErrDuplicatedKey` and
whose text mentions neither `unique` nor `duplicate key` is returned
unchanged even though a row with the attempted `ID` exists, where the
claim demands `ErrServiceTypeIDTaken`. -/
theorem c3_counterexample :
    serviceTypeIdExists c3State c3Attempt.ID = true
    ∧ mapUniqueConstraintErrorST c3State c3Err c3Attempt = .raw c3Err
    ∧ mapUniqueConstraintErrorST c3State c3Err c3Attempt
        ≠ .errServiceTypeIDTaken := by
  refine ⟨by decide, by decide, by decide⟩

/-- **C3 (amended).** For every failed `ServiceTypeStore.Create` write
whose error is `gorm.ErrDuplicatedKey` or whose text indicates a
uniqueness violation (`unique`, case-insensitively, or `duplicate key`),
the classifier evaluates its two candidate checks in order — attempted
`ID` exists ⇒ `ErrServiceTypeIDTaken`, else attempted `ServiceType`
value exists ⇒ `ErrServiceTypeServiceTypeTaken` — and returns the
original error when neither matches; any other failure is returned
unchanged without evaluating the checks. -/
theorem c3_create_classifier_amended :
    ∀ (st : DBState) (e : RawError) (v : ServiceType),
      (uniqueIndicated e = true →
        (serviceTypeIdExists st v.ID = true →
          mapUniqueConstraintErrorST st e v = .errServiceTypeIDTaken)
        ∧ (serviceTypeIdExists st v.ID = false →
          serviceTypeValueExists st v.ServiceType = true →
          mapUniqueConstraintErrorST st e v = .errServiceTypeServiceTypeTaken)
        ∧ (serviceTypeIdExists st v.ID = false →
          serviceTypeValueExists st v.ServiceType = false →
          mapUniqueConstraintErrorST st e v = .raw e))
      ∧ (uniqueIndicated e = false →
        mapUniqueConstraintErrorST st e v = .raw e) := by
  intro st e v
  constructor
  · intro huniq
    refine ⟨fun hid => ?_, fun hid hval => ?_, fun hid hval => ?_⟩
    · simp [mapUniqueConstraintErrorST, huniq, hid]
    · simp [mapUniqueConstraintErrorST, huniq, hid, hval]
    · simp [mapUniqueConstraintErrorST, huniq, hid, hval]
  · intro hnuniq
    simp [mapUniqueConstraintErrorST, hnuniq]

/-- Witness for the amended C3: an sqlite uniqueness failure with the
attempted id already present yields `ErrServiceTypeIDTaken`. -/
theorem c3_witness :
    mapUniqueConstraintErrorST c3State (sqliteUniqueErr "service_types.id")
      c3Attempt = .errServiceTypeIDTaken := by
  exact ((c3_create_classifier_amended c3State
    (sqliteUniqueErr "service_types.id") c3Attempt).1 (by decide)).1 (by decide)

/-! ### C5: CatalogItemStore.Update error mapping -/

/-- **C5.** On `CatalogItemStore.Update`, a write failure whose text
indicates a foreign-key violation maps to `ErrServiceTypeNotFound`
unconditionally — the classification depends only on the error, with no
confirmation lookup against any state — and an error-free update that
affects zero rows maps to `ErrCatalogItemNotFound`.  The last two
conjuncts re-state both facts through the full update pipeline: a
missing referenced service type (with the target row present) yields
`ErrServiceTypeNotFound`, a missing target row yields
`ErrCatalogItemNotFound`. -/
theorem c5_update_error_mapping :
    (∀ (res : GoWriteResult) (e : RawError), res.error = some e →
      fkIndicatedUD e = true →
      catalogItemUpdateClassify res = some .errServiceTypeNotFound)
    ∧ (∀ res : GoWriteResult, res.error = none → res.rowsAffected = 0 →
      catalogItemUpdateClassify res = some .errCatalogItemNotFound)
    ∧ (∀ (st : DBState) (now : Nat) (item : CatalogItem),
      catalogItemIdExists st item.ID = true →
      serviceTypeValueExists st item.Spec.ServiceType = false →
      (catalogItemUpdate st now item).2 = some .errServiceTypeNotFound)
    ∧ (∀ (st : DBState) (now : Nat) (item : CatalogItem),
      catalogItemIdExists st item.ID = false →
      (catalogItemUpdate st now item).2 = some .errCatalogItemNotFound) := by
  refine ⟨?_, ?_, ?_, ?_⟩
  · intro res e herr hfk
    simp [catalogItemUpdateClassify, herr, hfk]
  · intro res herr hz
    simp [catalogItemUpdateClassify, herr, hz]
  · intro st now item hid hval
    have hne : (st.catalogItems.filter
        (fun r => r.ID == item.ID)).isEmpty = false := by
      simp only [catalogItemIdExists, List.any_eq_true] at hid
      obtain ⟨r, hr, hrid⟩ := hid
      have hnil : st.catalogItems.filter (fun r => r.ID == item.ID) ≠ [] := by
        intro hcon
        rw [List.filter_eq_nil_iff] at hcon
        exact absurd hrid (by simpa using hcon r hr)
      simpa [List.isEmpty_iff] using hnil
    have hfk : fkIndicatedUD sqliteFKErr = true := by decide
    simp [catalogItemUpdate, dbUpdateCatalogItem, hne, hval,
      catalogItemUpdateClassify, hfk]
  · intro st now item hid
    have hemp : (st.catalogItems.filter
        (fun r => r.ID == item.ID)).isEmpty = true := by
      simp only [catalogItemIdExists, List.any_eq_true, not_exists] at hid
      simp only [List.isEmpty_iff, List.filter_eq_nil_iff]
      intro r hr
      intro hcon
      have : st.catalogItems.any (fun r => r.ID == item.ID) = true :=
        List.any_eq_true.mpr ⟨r, hr, hcon⟩
      rw [hid] at this
      cases this
    simp [catalogItemUpdate, dbUpdateCatalogItem, hemp, catalogItemUpdateClassify]

/-- Witness for C5: the sqlite foreign-key failure text maps to
`ErrServiceTypeNotFound`; zero affected rows map to
`ErrCatalogItemNotFound`. -/
theorem c5_witness :
    catalogItemUpdateClassify { error := some sqliteFKErr, rowsAffected := 0 }
      = some .errServiceTypeNotFound
    ∧ catalogItemUpdateClassify { error := none, rowsAffected := 0 }
      = some .errCatalogItemNotFound := by
  exact ⟨c5_update_error_mapping.1 _ sqliteFKErr rfl (by decide),
    c5_update_error_mapping.2.1 _ rfl rfl⟩

/-! ### C4: restrict-delete on catalog items -/

/-- **C4.** `CatalogItemStore.Delete` of an existing catalog item that
some instance still references fails with the foreign-key violation and
maps it to `ErrCatalogItemHasInstances`; deleting an absent item affects
zero rows and yields `ErrCatalogItemNotFound`; an existing, unreferenced
item is deleted successfully — in particular, after the single
referencing instance is removed through
`CatalogItemInstanceStore.Delete`, deleting the same item succeeds. -/
theorem c4_delete_restrict :
    ∀ (st : DBState) (id : String),
      (catalogItemIdExists st id = true → instanceReferences st id = true →
        (catalogItemDelete st id).2 = some .errCatalogItemHasInstances)
      ∧ (catalogItemIdExists st id = false →
        (catalogItemDelete st id).2 = some .errCatalogItemNotFound)
      ∧ (catalogItemIdExists st id = true → instanceReferences st id = false →
        (catalogItemDelete st id).2 = none)
      ∧ (∀ inst : CatalogItemInstance,
        catalogItemIdExists st id = true →
        st.catalogItemInstances.filter
          (fun r => r.SpecCatalogItemId == id) = [inst] →
        (catalogItemDelete ((catalogItemInstanceDelete st inst.ID).1) id).2
          = none) := by
  intro st id
  have hfkTrue : fkIndicatedUD sqliteFKErr = true := by decide
  have hfilterNe : catalogItemIdExists st id = true →
      (st.catalogItems.filter (fun r => r.ID == id)).isEmpty = false := by
    intro hid
    simp only [catalogItemIdExists, List.any_eq_true] at hid
    obtain ⟨r, hr, hrid⟩ := hid
    have hnil : st.catalogItems.filter (fun r => r.ID == id) ≠ [] := by
      intro hcon
      rw [List.filter_eq_nil_iff] at hcon
      exact absurd hrid (by simpa using hcon r hr)
    simpa [List.isEmpty_iff] using hnil
  have hfilterEmp : catalogItemIdExists st id = false →
      (st.catalogItems.filter (fun r => r.ID == id)).isEmpty = true := by
    intro hid
    simp only [List.isEmpty_iff, List.filter_eq_nil_iff]
    intro r hr hcon
    have : st.catalogItems.any (fun r => r.ID == id) = true :=
      List.any_eq_true.mpr ⟨r, hr, hcon⟩
    rw [catalogItemIdExists] at hid
    rw [hid] at this
    cases this
  refine ⟨?_, ?_, ?_, ?_⟩
  · intro hid href
    have hne := hfilterNe hid
    simp [catalogItemDelete, dbDeleteCatalogItem, hne, href,
      catalogItemDeleteClassify, hfkTrue]
  · intro hid
    have hemp := hfilterEmp hid
    have hlen : (st.catalogItems.filter (fun r => r.ID == id)).length = 0 := by
      rw [List.isEmpty_iff] at hemp
      simp [hemp]
    simp [catalogItemDelete, dbDeleteCatalogItem, hemp, hlen,
      catalogItemDeleteClassify]
  · intro hid href
    have hne := hfilterNe hid
    have hlen : (st.catalogItems.filter (fun r => r.ID == id)).length ≠ 0 := by
      intro hcon
      rw [List.length_eq_zero] at hcon
      rw [hcon] at hne
      simp [List.isEmpty_iff] at hne
    simp [catalogItemDelete, dbDeleteCatalogItem, hne, href,
      catalogItemDeleteClassify, hlen]
  · intro inst hid hsingle
    set st' := (catalogItemInstanceDelete st inst.ID).1 with hst'
    have hitems : st'.catalogItems = st.catalogItems := rfl
    have hid' : catalogItemIdExists st' id = true := by
      rw [catalogItemIdExists, hitems]
      exact hid
    have href' : instanceReferences st' id = false := by
      rw [instanceReferences]
      have hinsts : st'.catalogItemInstances
          = st.catalogItemInstances.filter (fun r => !(r.ID == inst.ID)) := rfl
      rw [hinsts]
      rw [Bool.eq_false_iff]
      intro hcon
      rw [List.any_eq_true] at hcon
      obtain ⟨r, hr, hrref⟩ := hcon
      rw [List.mem_filter] at hr
      obtain ⟨hrmem, hrid⟩ := hr
      have hrin : r ∈ st.catalogItemInstances.filter
          (fun r => r.SpecCatalogItemId == id) :=
        List.mem_filter.mpr ⟨hrmem, hrref⟩
      rw [hsingle] at hrin
      have : r = inst := by simpa using hrin
      subst this
      simp at hrid
    have hne' : (st'.catalogItems.filter (fun r => r.ID == id)).isEmpty = false := by
      simp only [catalogItemIdExists, List.any_eq_true] at hid'
      obtain ⟨r, hr, hrid⟩ := hid'
      have hnil : st'.catalogItems.filter (fun r => r.ID == id) ≠ [] := by
        intro hcon
        rw [List.filter_eq_nil_iff] at hcon
        exact absurd hrid (by simpa using hcon r hr)
      simpa [List.isEmpty_iff] using hnil
    have hlen' : (st'.catalogItems.filter (fun r => r.ID == id)).length ≠ 0 := by
      intro hcon
      rw [List.length_eq_zero] at hcon
      rw [hcon] at hne'
      simp [List.isEmpty_iff] at hne'
    simp [catalogItemDelete, dbDeleteCatalogItem, hne', href',
      catalogItemDeleteClassify, hlen']

/-- Fixtures for the C4 witness: the spec's example scenario
(`vm-1`/`small-vm`/`my-vm`). -/
def sampleItem : CatalogItem :=
  { ID := "small-vm", ApiVersion := "v1alpha1", DisplayName := "Small VM"
    Spec := { ServiceType := "vm", Fields := [] }
    Path := "catalog-items/small-vm", CreateTime := 1, UpdateTime := 1
    SpecServiceType := "vm" }

def sampleInstance : CatalogItemInstance :=
  { ID := "my-vm", ApiVersion := "v1alpha1", DisplayName := "My VM"
    Spec := { CatalogItemId := "small-vm", UserValues := [] }
    ServiceTypeInstanceUid := "uid-1", Path := "catalog-item-instances/my-vm"
    CreateTime := 2, UpdateTime := 2, SpecCatalogItemId := "small-vm" }

def c4State : DBState :=
  { serviceTypes := [sampleVMServiceType], catalogItems := [sampleItem]
    catalogItemInstances := [sampleInstance] }

/-- Witness for C4: deleting `small-vm` while `my-vm` references it is
blocked; after deleting `my-vm`, it succeeds. -/
theorem c4_witness :
    (catalogItemDelete c4State "small-vm").2 = some .errCatalogItemHasInstances
    ∧ (catalogItemDelete ((catalogItemInstanceDelete c4State
        sampleInstance.ID).1) "small-vm").2 = none := by
  refine ⟨(c4_delete_restrict c4State "small-vm").1 (by decide) (by decide), ?_⟩
  exact (c4_delete_restrict c4State "small-vm").2.2.2 sampleInstance
    (by decide) (by decide)

/-! ### C6: the Update frame -/

/-- State for the C6 counterexample: `small-vm` exists (stored
`update_time` is 1) and its service type `vm` exists. -/
def c6State : DBState :=
  { serviceTypes := [sampleVMServiceType], catalogItems := [sampleItem]
    catalogItemInstances := [] }

/-- An update payload for `small-vm`.  Its `SpecServiceType` field is
set to a junk value to exhibit that the store recomputes the column from
`Spec.ServiceType`. -/
def c6Item : CatalogItem :=
  { ID := "small-vm", ApiVersion := "v1alpha1", DisplayName := "Renamed VM"
    Spec := { ServiceType := "vm", Fields := [] }
    Path := "catalog-items/small-vm", CreateTime := 9, UpdateTime := 9
    SpecServiceType := "ignored" }

/-- **C6 (counterexample).** A successful `Update` at time 5 of a row
whose stored `update_time` is 1 leaves the row with `update_time` 5: the
`update_time` column carries GORM's `autoUpdateTime` tag and is assigned
on every update even though it is outside the `Select` column set, so
the claim that the timestamps are unchanged by `Update` fails. -/
theorem c6_counterexample :
    (catalogItemUpdate c6State 5 c6Item).2 = none
    ∧ c6State.catalogItems.map (fun r => r.UpdateTime) = [1]
    ∧ (catalogItemUpdate c6State 5 c6Item).1.catalogItems.map
        (fun r => r.UpdateTime) = [5] := by
  refine ⟨by decide, by decide, by decide⟩

/-- **C6 (amended).** A successful `Update` may change only the
`display_name`, `spec` and `spec_service_type` columns of the addressed
row plus its auto-maintained `update_time` (set to the current time);
the identifier, `api_version`, `path` and the creation timestamp are
unchanged; rows with other identifiers and the other two tables are
untouched; and the denormalized `spec_service_type` written is always
recomputed from the payload's `Spec.ServiceType`, never taken from the
caller-supplied field. -/
theorem c6_update_frame_amended :
    (∀ (r v : CatalogItem) (now : Nat),
      (applyCatalogItemUpdate r v now).ID = r.ID
      ∧ (applyCatalogItemUpdate r v now).ApiVersion = r.ApiVersion
      ∧ (applyCatalogItemUpdate r v now).Path = r.Path
      ∧ (applyCatalogItemUpdate r v now).CreateTime = r.CreateTime
      ∧ (applyCatalogItemUpdate r v now).DisplayName = v.DisplayName
      ∧ (applyCatalogItemUpdate r v now).Spec = v.Spec
      ∧ (applyCatalogItemUpdate r v now).SpecServiceType = v.SpecServiceType
      ∧ (applyCatalogItemUpdate r v now).UpdateTime = now)
    ∧ (∀ (st : DBState) (now : Nat) (item : CatalogItem),
      (catalogItemUpdate st now item).1.serviceTypes = st.serviceTypes
      ∧ (catalogItemUpdate st now item).1.catalogItemInstances
          = st.catalogItemInstances
      ∧ ((catalogItemUpdate st now item).1.catalogItems = st.catalogItems
        ∨ (catalogItemUpdate st now item).1.catalogItems
            = st.catalogItems.map fun r =>
                if r.ID == item.ID then
                  applyCatalogItemUpdate r
                    { item with SpecServiceType := item.Spec.ServiceType } now
                else r)) := by
  constructor
  · intro r v now
    exact ⟨rfl, rfl, rfl, rfl, rfl, rfl, rfl, rfl⟩
  · intro st now item
    simp only [catalogItemUpdate, dbUpdateCatalogItem]
    split
    · exact ⟨rfl, rfl, Or.inl rfl⟩
    · split
      · exact ⟨rfl, rfl, Or.inl rfl⟩
      · exact ⟨rfl, rfl, Or.inr rfl⟩

/-! ### C8: Create/Get round trip -/

/-- `First` under a predicate finds the unique matching row, whatever
the `ORDER BY` key. -/
theorem find_sorted_unique {α : Type} (key : α → String) (p : α → Bool)
    (l : List α) (x : α) (hx : x ∈ l) (hp : p x = true)
    (huniq : ∀ y ∈ l, p y = true → y = x) :
    (sortByKey key l).find? p = some x := by
  cases hf : (sortByKey key l).find? p with
  | none =>
    rw [List.find?_eq_none] at hf
    exact absurd hp (by simpa using hf x ((mem_sortByKey key x l).mpr hx))
  | some y =>
    have hpy := List.find?_some hf
    have hmem := List.mem_of_find?_eq_some hf
    rw [mem_sortByKey] at hmem
    rw [huniq y hmem hpy]

/-- C8, ServiceType tier. -/
theorem createGet_serviceType :
    ∀ (st : DBState) (now : Nat) (e : ServiceType) (st2 : DBState)
      (row : ServiceType),
      serviceTypeCreate st now e = (st2, .ok row) →
      ∃ got, serviceTypeGet st2 e.ID = .ok got
        ∧ got.ID = e.ID ∧ got.ApiVersion = e.ApiVersion
        ∧ got.ServiceType = e.ServiceType ∧ got.Metadata = e.Metadata
        ∧ got.Spec = e.Spec ∧ got.Path = e.Path := by
  intro st now e st2 row h
  by_cases hid : serviceTypeIdExists st e.ID = true
  · simp [serviceTypeCreate, dbCreateServiceType, hid] at h
  · by_cases hval : serviceTypeValueExists st e.ServiceType = true
    · simp [serviceTypeCreate, dbCreateServiceType, hid, hval] at h
    · simp only [serviceTypeCreate, dbCreateServiceType, hid, hval,
        Bool.false_eq_true, ite_false, Prod.mk.injEq, Except.ok.injEq] at h
      obtain ⟨hst2, -⟩ := h
      refine ⟨{ e with CreateTime := now, UpdateTime := now }, ?_, rfl, rfl,
        rfl, rfl, rfl, rfl⟩
      have hmem : ({ e with CreateTime := now, UpdateTime := now } : ServiceType)
          ∈ st2.serviceTypes := by
        rw [← hst2]
        simp
      have huniq : ∀ y ∈ st2.serviceTypes, (y.ID == e.ID) = true →
          y = { e with CreateTime := now, UpdateTime := now } := by
        intro y hy hpy
        rw [← hst2] at hy
        simp only [List.mem_append, List.mem_singleton] at hy
        rcases hy with hy | hy
        · exfalso
          apply hid
          rw [serviceTypeIdExists, List.any_eq_true]
          exact ⟨y, hy, hpy⟩
        · exact hy
      have hfind := find_sorted_unique (fun r => r.ID) (fun r => r.ID == e.ID)
        st2.serviceTypes ({ e with CreateTime := now, UpdateTime := now })
        hmem (by simp) huniq
      simp [serviceTypeGet, hfind]

/-- C8, CatalogItem tier. -/
theorem createGet_catalogItem :
    ∀ (st : DBState) (now : Nat) (e : CatalogItem) (st2 : DBState)
      (row : CatalogItem),
      catalogItemCreate st now e = (st2, .ok row) →
      ∃ got, catalogItemGet st2 e.ID = .ok got
        ∧ got.ID = e.ID ∧ got.ApiVersion = e.ApiVersion
        ∧ got.DisplayName = e.DisplayName ∧ got.Spec = e.Spec
        ∧ got.Path = e.Path ∧ got.SpecServiceType = e.Spec.ServiceType := by
  intro st now e st2 row h
  by_cases hid : catalogItemIdExists st e.ID = true
  · simp [catalogItemCreate, dbCreateCatalogItem, hid] at h
  · by_cases hval : serviceTypeValueExists st e.Spec.ServiceType = true
    · simp only [catalogItemCreate, dbCreateCatalogItem, hid, hval,
        Bool.false_eq_true, ite_false, not_true, Prod.mk.injEq,
        Except.ok.injEq] at h
      obtain ⟨hst2, -⟩ := h
      refine ⟨{ e with
        SpecServiceType := e.Spec.ServiceType
        CreateTime := now
        UpdateTime := now }, ?_, rfl, rfl, rfl, rfl, rfl, rfl⟩
      have hmem : ({ e with
          SpecServiceType := e.Spec.ServiceType
          CreateTime := now
          UpdateTime := now } : CatalogItem) ∈ st2.catalogItems := by
        rw [← hst2]
        simp
      have huniq : ∀ y ∈ st2.catalogItems, (y.ID == e.ID) = true →
          y = { e with
            SpecServiceType := e.Spec.ServiceType
            CreateTime := now
            UpdateTime := now } := by
        intro y hy hpy
        rw [← hst2] at hy
        simp only [List.mem_append, List.mem_singleton] at hy
        rcases hy with hy | hy
        · exfalso
          apply hid
          rw [catalogItemIdExists, List.any_eq_true]
          exact ⟨y, hy, hpy⟩
        · exact hy
      have hfind := find_sorted_unique (fun r => r.ID) (fun r => r.ID == e.ID)
        st2.catalogItems ({ e with
          SpecServiceType := e.Spec.ServiceType
          CreateTime := now
          UpdateTime := now }) hmem (by simp) huniq
      simp [catalogItemGet, hfind]
    · simp [catalogItemCreate, dbCreateCatalogItem, hid, hval] at h

/-- C8, CatalogItemInstance tier. -/
theorem createGet_instance :
    ∀ (st : DBState) (now : Nat) (e : CatalogItemInstance) (st2 : DBState)
      (row : CatalogItemInstance),
      catalogItemInstanceCreate st now e = (st2, .ok row) →
      ∃ got, catalogItemInstanceGet st2 e.ID = .ok got
        ∧ got.ID = e.ID ∧ got.ApiVersion = e.ApiVersion
        ∧ got.DisplayName = e.DisplayName ∧ got.Spec = e.Spec
        ∧ got.ServiceTypeInstanceUid = e.ServiceTypeInstanceUid
        ∧ got.Path = e.Path ∧ got.SpecCatalogItemId = e.Spec.CatalogItemId := by
  intro st now e st2 row h
  by_cases hid : catalogItemInstanceIdExists st e.ID = true
  · simp [catalogItemInstanceCreate, dbCreateCatalogItemInstance, hid] at h
  · by_cases hval : catalogItemIdExists st e.Spec.CatalogItemId = true
    · simp only [catalogItemInstanceCreate, dbCreateCatalogItemInstance, hid,
        hval, Bool.false_eq_true, ite_false, not_true, Prod.mk.injEq,
        Except.ok.injEq] at h
      obtain ⟨hst2, -⟩ := h
      refine ⟨{ e with
        SpecCatalogItemId := e.Spec.CatalogItemId
        CreateTime := now
        UpdateTime := now }, ?_, rfl, rfl, rfl, rfl, rfl, rfl, rfl⟩
      have hmem : ({ e with
          SpecCatalogItemId := e.Spec.CatalogItemId
          CreateTime := now
          UpdateTime := now } : CatalogItemInstance)
          ∈ st2.catalogItemInstances := by
        rw [← hst2]
        simp
      have huniq : ∀ y ∈ st2.catalogItemInstances, (y.ID == e.ID) = true →
          y = { e with
            SpecCatalogItemId := e.Spec.CatalogItemId
            CreateTime := now
            UpdateTime := now } := by
        intro y hy hpy
        rw [← hst2] at hy
        simp only [List.mem_append, List.mem_singleton] at hy
        rcases hy with hy | hy
        · exfalso
          apply hid
          rw [catalogItemInstanceIdExists, List.any_eq_true]
          exact ⟨y, hy, hpy⟩
        · exact hy
      have hfind := find_sorted_unique (fun r => r.ID) (fun r => r.ID == e.ID)
        st2.catalogItemInstances ({ e with
          SpecCatalogItemId := e.Spec.CatalogItemId
          CreateTime := now
          UpdateTime := now }) hmem (by simp) huniq
      simp [catalogItemInstanceGet, hfind]
    · simp [catalogItemInstanceCreate, dbCreateCatalogItemInstance, hid, hval]
        at h

/-- **C8.** For each of the three entity kinds, a successful `Create`
followed by `Get` on the created identifier returns a row that agrees
with the input on every caller-supplied field (identifier, api-version,
service-type code / display name, metadata, spec, path, and the
denormalized reference where present). -/
theorem c8_create_get_roundtrip :
    (∀ (st : DBState) (now : Nat) (e : ServiceType) (st2 : DBState)
      (row : ServiceType),
      serviceTypeCreate st now e = (st2, .ok row) →
      ∃ got, serviceTypeGet st2 e.ID = .ok got
        ∧ got.ID = e.ID ∧ got.ApiVersion = e.ApiVersion
        ∧ got.ServiceType = e.ServiceType ∧ got.Metadata = e.Metadata
        ∧ got.Spec = e.Spec ∧ got.Path = e.Path)
    ∧ (∀ (st : DBState) (now : Nat) (e : CatalogItem) (st2 : DBState)
      (row : CatalogItem),
      catalogItemCreate st now e = (st2, .ok row) →
      ∃ got, catalogItemGet st2 e.ID = .ok got
        ∧ got.ID = e.ID ∧ got.ApiVersion = e.ApiVersion
        ∧ got.DisplayName = e.DisplayName ∧ got.Spec = e.Spec
        ∧ got.Path = e.Path ∧ got.SpecServiceType = e.Spec.ServiceType)
    ∧ (∀ (st : DBState) (now : Nat) (e : CatalogItemInstance) (st2 : DBState)
      (row : CatalogItemInstance),
      catalogItemInstanceCreate st now e = (st2, .ok row) →
      ∃ got, catalogItemInstanceGet st2 e.ID = .ok got
        ∧ got.ID = e.ID ∧ got.ApiVersion = e.ApiVersion
        ∧ got.DisplayName = e.DisplayName ∧ got.Spec = e.Spec
        ∧ got.ServiceTypeInstanceUid = e.ServiceTypeInstanceUid
        ∧ got.Path = e.Path ∧ got.SpecCatalogItemId = e.Spec.CatalogItemId) :=
  ⟨createGet_serviceType, createGet_catalogItem, createGet_instance⟩

/-- Fixtures for the C8 witness: the spec's example scenario run from an
empty database. -/
def c8EmptyState : DBState :=
  { serviceTypes := [], catalogItems := [], catalogItemInstances := [] }

def c8State1 : DBState := (serviceTypeCreate c8EmptyState 7 sampleVMServiceType).1

def c8State2 : DBState := (catalogItemCreate c8State1 8 sampleItem).1

/-- Witness for C8: create `vm-1`, `small-vm` and `my-vm` in turn; each
`Get` returns the caller-supplied fields. -/
theorem c8_witness :
    (∃ got, serviceTypeGet c8State1 sampleVMServiceType.ID = .ok got
      ∧ got.ID = sampleVMServiceType.ID
      ∧ got.ApiVersion = sampleVMServiceType.ApiVersion
      ∧ got.ServiceType = sampleVMServiceType.ServiceType
      ∧ got.Metadata = sampleVMServiceType.Metadata
      ∧ got.Spec = sampleVMServiceType.Spec
      ∧ got.Path = sampleVMServiceType.Path)
    ∧ (∃ got, catalogItemGet c8State2 sampleItem.ID = .ok got
      ∧ got.ID = sampleItem.ID ∧ got.ApiVersion = sampleItem.ApiVersion
      ∧ got.DisplayName = sampleItem.DisplayName ∧ got.Spec = sampleItem.Spec
      ∧ got.Path = sampleItem.Path
      ∧ got.SpecServiceType = sampleItem.Spec.ServiceType)
    ∧ (∃ got, catalogItemInstanceGet
        (catalogItemInstanceCreate c8State2 9 sampleInstance).1
        sampleInstance.ID = .ok got
      ∧ got.ID = sampleInstance.ID
      ∧ got.ApiVersion = sampleInstance.ApiVersion
      ∧ got.DisplayName = sampleInstance.DisplayName
      ∧ got.Spec = sampleInstance.Spec
      ∧ got.ServiceTypeInstanceUid = sampleInstance.ServiceTypeInstanceUid
      ∧ got.Path = sampleInstance.Path
      ∧ got.SpecCatalogItemId = sampleInstance.Spec.CatalogItemId) := by
  refine ⟨?_, ?_, ?_⟩
  · exact c8_create_get_roundtrip.1 c8EmptyState 7 sampleVMServiceType c8State1
      { sampleVMServiceType with CreateTime := 7, UpdateTime := 7 } rfl
  · exact c8_create_get_roundtrip.2.1 c8State1 8 sampleItem c8State2
      { sampleItem with SpecServiceType := "vm", CreateTime := 8, UpdateTime := 8 }
      rfl
  · exact c8_create_get_roundtrip.2.2 c8State2 9 sampleInstance
      (catalogItemInstanceCreate c8State2 9 sampleInstance).1
      { sampleInstance with
        SpecCatalogItemId := "small-vm"
        CreateTime := 9
        UpdateTime := 9 } rfl

/-! ### C1: the List contract -/

/-- **C1.** Every `List`: the effective page size is the caller's value
when positive and 50 otherwise; the offset is decoded from the token
(absent ⇒ 0); the query takes the rows ordered by the per-entity sort
key (`service_type` for ServiceTypeStore, `id` for the other two) with
`LIMIT pageSize+1 OFFSET offset`; and when `pageSize+1` rows come back
the result is exactly `pageSize` rows plus a non-empty token encoding
`offset+pageSize`, otherwise all returned rows and no token. -/
theorem c1_list_pagination :
    (∀ ps : Int, (0 < ps → effPageSize ps = ps) ∧ (¬ 0 < ps → effPageSize ps = 50))
    ∧ decodePageOffset none = 0
    ∧ (∀ (rows : List ServiceType) (ps off : Int),
      sliceRows rows ps off = (rows.drop off.toNat).take (ps + 1).toNat)
    ∧ (∀ (table : List ServiceType) (opts : ServiceTypeListOptions),
      serviceTypeList table opts = serviceTypeListCore table
        (effPageSize opts.PageSize) (decodePageOffset opts.PageToken))
    ∧ (∀ (table : List CatalogItem) (opts : CatalogItemListOptions),
      catalogItemList table opts = catalogItemListCore table opts.ServiceType
        (effPageSize opts.PageSize) (decodePageOffset opts.PageToken))
    ∧ (∀ (table : List CatalogItemInstance) (opts : CatalogItemInstanceListOptions),
      catalogItemInstanceList table opts = catalogItemInstanceListCore table
        opts.CatalogItemId (effPageSize opts.PageSize)
        (decodePageOffset opts.PageToken))
    ∧ (∀ (table : List ServiceType) (ps off : Int), 1 ≤ ps →
      (((serviceTypeQueried table ps off).length : Int) = ps + 1 →
        ((serviceTypeListCore table ps off).ServiceTypes.length : Int) = ps
        ∧ (serviceTypeListCore table ps off).NextPageToken
            = some (encodePageToken (off + ps))
        ∧ encodePageToken (off + ps) ≠ "")
      ∧ (((serviceTypeQueried table ps off).length : Int) < ps + 1 →
        (serviceTypeListCore table ps off).ServiceTypes
            = serviceTypeQueried table ps off
        ∧ (serviceTypeListCore table ps off).NextPageToken = none))
    ∧ (∀ (table : List CatalogItem) (flt : String) (ps off : Int), 1 ≤ ps →
      (((catalogItemQueried table flt ps off).length : Int) = ps + 1 →
        ((catalogItemListCore table flt ps off).CatalogItems.length : Int) = ps
        ∧ (catalogItemListCore table flt ps off).NextPageToken
            = encodePageToken (off + ps)
        ∧ encodePageToken (off + ps) ≠ "")
      ∧ (((catalogItemQueried table flt ps off).length : Int) < ps + 1 →
        (catalogItemListCore table flt ps off).CatalogItems
            = catalogItemQueried table flt ps off
        ∧ (catalogItemListCore table flt ps off).NextPageToken = ""))
    ∧ (∀ (table : List CatalogItemInstance) (flt : String) (ps off : Int),
      1 ≤ ps →
      (((instanceQueried table flt ps off).length : Int) = ps + 1 →
        ((catalogItemInstanceListCore table flt ps off).CatalogItemInstances.length
            : Int) = ps
        ∧ (catalogItemInstanceListCore table flt ps off).NextPageToken
            = encodePageToken (off + ps)
        ∧ encodePageToken (off + ps) ≠ "")
      ∧ (((instanceQueried table flt ps off).length : Int) < ps + 1 →
        (catalogItemInstanceListCore table flt ps off).CatalogItemInstances
            = instanceQueried table flt ps off
        ∧ (catalogItemInstanceListCore table flt ps off).NextPageToken = "")) := by
  refine ⟨?_, rfl, fun _ _ _ => rfl, fun _ _ => rfl, fun _ _ => rfl,
    fun _ _ => rfl, ?_, ?_, ?_⟩
  · intro ps
    exact ⟨fun h => by simp [effPageSize, h], fun h => by simp [effPageSize, h]⟩
  · intro table ps off hps
    constructor
    · intro hq
      have hgt : ((serviceTypeQueried table ps off).length : Int) > ps := by omega
      simp only [serviceTypeListCore, hgt, ite_true]
      exact ⟨take_length_of_longer _ ps hps hgt, by trivial, encodePageToken_ne_empty _⟩
    · intro hq
      have hle : ¬ ((serviceTypeQueried table ps off).length : Int) > ps := by
        omega
      simp only [serviceTypeListCore, hle, ite_false]
      exact ⟨by trivial, by trivial⟩
  · intro table flt ps off hps
    constructor
    · intro hq
      have hgt : ((catalogItemQueried table flt ps off).length : Int) > ps := by
        omega
      simp only [catalogItemListCore, hgt, ite_true]
      exact ⟨take_length_of_longer _ ps hps hgt, by trivial, encodePageToken_ne_empty _⟩
    · intro hq
      have hle : ¬ ((catalogItemQueried table flt ps off).length : Int) > ps := by
        omega
      simp only [catalogItemListCore, hle, ite_false]
      exact ⟨by trivial, by trivial⟩
  · intro table flt ps off hps
    constructor
    · intro hq
      have hgt : ((instanceQueried table flt ps off).length : Int) > ps := by
        omega
      simp only [catalogItemInstanceListCore, hgt, ite_true]
      exact ⟨take_length_of_longer _ ps hps hgt, by trivial, encodePageToken_ne_empty _⟩
    · intro hq
      have hle : ¬ ((instanceQueried table flt ps off).length : Int) > ps := by
        omega
      simp only [catalogItemInstanceListCore, hle, ite_false]
      exact ⟨by trivial, by trivial⟩

/-- Fixtures for the C1 witness: two rows per table, listed with page
size 1 so that `pageSize+1` rows come back. -/
def c1ST1 : ServiceType :=
  { ID := "a", ApiVersion := "v1alpha1", ServiceType := "alpha"
    Metadata := { Labels := [] }, Spec := "s1", Path := "service-types/a"
    CreateTime := 0, UpdateTime := 0 }

def c1ST2 : ServiceType :=
  { c1ST1 with ID := "b", ServiceType := "beta", Path := "service-types/b" }

def c1CI1 : CatalogItem :=
  { ID := "a", ApiVersion := "v1alpha1", DisplayName := "A"
    Spec := { ServiceType := "alpha", Fields := [] }
    Path := "catalog-items/a", CreateTime := 0, UpdateTime := 0
    SpecServiceType := "alpha" }

def c1CI2 : CatalogItem := { c1CI1 with ID := "b", DisplayName := "B" }

def c1II1 : CatalogItemInstance :=
  { ID := "a", ApiVersion := "v1alpha1", DisplayName := "A"
    Spec := { CatalogItemId := "a", UserValues := [] }
    ServiceTypeInstanceUid := "", Path := "catalog-item-instances/a"
    CreateTime := 0, UpdateTime := 0, SpecCatalogItemId := "a" }

def c1II2 : CatalogItemInstance := { c1II1 with ID := "b" }

/-- Witness for C1: with two rows and page size 1, each store returns one
row and a non-empty next token encoding offset 1. -/
theorem c1_witness :
    (((serviceTypeListCore [c1ST2, c1ST1] 1 0).ServiceTypes.length : Int) = 1
      ∧ (serviceTypeListCore [c1ST2, c1ST1] 1 0).NextPageToken
          = some (encodePageToken 1))
    ∧ (((catalogItemListCore [c1CI2, c1CI1] "" 1 0).CatalogItems.length : Int) = 1
      ∧ (catalogItemListCore [c1CI2, c1CI1] "" 1 0).NextPageToken
          = encodePageToken 1)
    ∧ (((catalogItemInstanceListCore [c1II2, c1II1] "" 1 0).CatalogItemInstances.length
          : Int) = 1
      ∧ (catalogItemInstanceListCore [c1II2, c1II1] "" 1 0).NextPageToken
          = encodePageToken 1) := by
  refine ⟨?_, ?_, ?_⟩
  · have h := (c1_list_pagination.2.2.2.2.2.2.1 [c1ST2, c1ST1] 1 0
      (by norm_num)).1 (by decide)
    have h0 : (0 : Int) + 1 = 1 := by norm_num
    exact ⟨h.1, by rw [h.2.1, h0]⟩
  · have h := (c1_list_pagination.2.2.2.2.2.2.2.1 [c1CI2, c1CI1] "" 1 0
      (by norm_num)).1 (by decide)
    have h0 : (0 : Int) + 1 = 1 := by norm_num
    exact ⟨h.1, by rw [h.2.1, h0]⟩
  · have h := (c1_list_pagination.2.2.2.2.2.2.2.2 [c1II2, c1II1] "" 1 0
      (by norm_num)).1 (by decide)
    have h0 : (0 : Int) + 1 = 1 := by norm_num
    exact ⟨h.1, by rw [h.2.1, h0]⟩

/-! ### C9: representation of the absent next-page token -/

/-- **C9.** The three stores represent the absent next token
differently: `serviceTypeStore.List` returns an optional token that is
`none` when no further rows exist, while the catalog item and instance
stores return a plain string that is empty; when further rows exist all
three return a non-empty token. -/
theorem c9_next_token_representation :
    (∀ (table : List ServiceType) (ps off : Int),
      (((serviceTypeQueried table ps off).length : Int) > ps →
        ∃ t, (serviceTypeListCore table ps off).NextPageToken = some t ∧ t ≠ "")
      ∧ (((serviceTypeQueried table ps off).length : Int) ≤ ps →
        (serviceTypeListCore table ps off).NextPageToken = none))
    ∧ (∀ (table : List CatalogItem) (flt : String) (ps off : Int),
      (((catalogItemQueried table flt ps off).length : Int) > ps →
        (catalogItemListCore table flt ps off).NextPageToken ≠ "")
      ∧ (((catalogItemQueried table flt ps off).length : Int) ≤ ps →
        (catalogItemListCore table flt ps off).NextPageToken = ""))
    ∧ (∀ (table : List CatalogItemInstance) (flt : String) (ps off : Int),
      (((instanceQueried table flt ps off).length : Int) > ps →
        (catalogItemInstanceListCore table flt ps off).NextPageToken ≠ "")
      ∧ (((instanceQueried table flt ps off).length : Int) ≤ ps →
        (catalogItemInstanceListCore table flt ps off).NextPageToken = "")) := by
  refine ⟨?_, ?_, ?_⟩
  · intro table ps off
    constructor
    · intro hgt
      simp only [serviceTypeListCore, hgt, ite_true]
      exact ⟨encodePageToken (off + ps), rfl, encodePageToken_ne_empty _⟩
    · intro hle
      have h : ¬ ((serviceTypeQueried table ps off).length : Int) > ps := by omega
      simp only [serviceTypeListCore, h, ite_false]
  · intro table flt ps off
    constructor
    · intro hgt
      simp only [catalogItemListCore, hgt, ite_true]
      exact encodePageToken_ne_empty _
    · intro hle
      have h : ¬ ((catalogItemQueried table flt ps off).length : Int) > ps := by
        omega
      simp only [catalogItemListCore, h, ite_false]
  · intro table flt ps off
    constructor
    · intro hgt
      simp only [catalogItemInstanceListCore, hgt, ite_true]
      exact encodePageToken_ne_empty _
    · intro hle
      have h : ¬ ((instanceQueried table flt ps off).length : Int) > ps := by
        omega
      simp only [catalogItemInstanceListCore, h, ite_false]

/-- Witness for C9: with two rows and page size 1 a non-empty token is
produced (in each store's representation); with one row and page size 1
the token is absent (`none` for service types, `""` for the others). -/
theorem c9_witness :
    (∃ t, (serviceTypeListCore [c1ST2, c1ST1] 1 0).NextPageToken = some t
      ∧ t ≠ "")
    ∧ (serviceTypeListCore [c1ST1] 1 0).NextPageToken = none
    ∧ (catalogItemListCore [c1CI2, c1CI1] "" 1 0).NextPageToken ≠ ""
    ∧ (catalogItemListCore [c1CI1] "" 1 0).NextPageToken = ""
    ∧ (catalogItemInstanceListCore [c1II2, c1II1] "" 1 0).NextPageToken ≠ ""
    ∧ (catalogItemInstanceListCore [c1II1] "" 1 0).NextPageToken = "" := by
  refine ⟨(c9_next_token_representation.1 [c1ST2, c1ST1] 1 0).1 (by decide),
    (c9_next_token_representation.1 [c1ST1] 1 0).2 (by decide),
    (c9_next_token_representation.2.1 [c1CI2, c1CI1] "" 1 0).1 (by decide),
    (c9_next_token_representation.2.1 [c1CI1] "" 1 0).2 (by decide),
    (c9_next_token_representation.2.2 [c1II2, c1II1] "" 1 0).1 (by decide),
    (c9_next_token_representation.2.2 [c1II1] "" 1 0).2 (by decide)⟩

end DCM
